import Mathlib

/-!
Verification of netlib (src/netlib.h), a small one-header POSIX socket
wrapper. The header's functions are thin sequences of syscalls; we embed
them shallowly by passing the outcomes of the underlying OS calls
(getaddrinfo, socket, connect, send, recv, sendto, setsockopt, bind) as
explicit oracle arguments, and we track the observable effects the claims
talk about: return codes, the bytes handed to the kernel, the in/out size
parameter, and whether cleanup calls (freeaddrinfo, close) were made.

Machine `int` is modelled as `Int`; none of the code paths involved
perform arithmetic that can overflow (they only compare and copy syscall
results), so no modular reduction is needed.
-/

namespace Netlib

/-! ## TCP send (`tsend`, src/netlib.h lines 116-125)

The do-while loop calls `send(targetfd, bytes, bytes_size, 0)` repeatedly.
The oracle `sends` lists the return value of each successive `send` call:
`-1` for failure, otherwise the number of bytes the kernel accepted.
Note that the loop body never advances the `bytes` pointer nor decreases
`bytes_size`: every iteration passes the identical arguments, which is why
the loop state below carries nothing but the remaining oracle trace. -/

/-- The loop of `tsend` (lines 119-123): returns `some (-1)` when a send
call returns `-1`, `some 0` when a call returns at least `bytes_size`, and
`none` when the finite oracle trace is exhausted with the loop still
running (each listed call kept the loop going). -/
def tsendLoop : List Int → Int → Option Int
  | [], _ => none
  | r :: rs, bytes_size =>
    if r = -1 then some (-1)
    else if r < bytes_size then tsendLoop rs bytes_size
    else some 0

/-- `tsend` (lines 116-125): runs the send loop and yields the function's
return value, `none` if the oracle trace ends before the loop does. -/
def tsend (sends : List Int) (bytes_size : Int) : Option Int :=
  tsendLoop sends bytes_size

/-- The bytes handed to the kernel across the send calls `tsend` makes on
buffer `bytes`: a call returning `r ≥ 0` has queued the first `r` bytes of
the buffer it was passed, and every call is passed the same buffer from
position 0 (the loop never advances the pointer). Concatenating per-call
contributions in order gives the byte sequence the peer will observe. -/
def tsendDelivered : List Int → Int → List Int → List Int
  | [], _, _ => []
  | r :: rs, bytes_size, bytes =>
    if r = -1 then []
    else if r < bytes_size then bytes.take r.toNat ++ tsendDelivered rs bytes_size bytes
    else bytes.take r.toNat

/-! ## TCP receive (`trecv`, src/netlib.h lines 145-152)

`recv(targetfd, bytes, *bytes_size, 0)` is modelled by its return value
`recvRet` and the incoming bytes `recvData` it writes; a successful call
writes `recvRet` bytes at the start of the caller's buffer and leaves the
rest untouched. The code assigns the recv result to `*bytes_size`
unconditionally, then tests it. -/

/-- Effect of the `recv` call on the caller's buffer: for `recvRet ≥ 0`
the first `recvRet` cells are overwritten with the incoming data, the rest
kept; for a failing call (`recvRet < 0`) the buffer is untouched. -/
def recvWrite (recvRet : Int) (recvData bytes : List Int) : List Int :=
  if 0 ≤ recvRet then recvData.take recvRet.toNat ++ bytes.drop recvRet.toNat
  else bytes

/-- Result of `trecv`: return code, final buffer contents, and the final
value of the in/out `*bytes_size` parameter. -/
structure TrecvResult where
  ret : Int
  bytes : List Int
  bytes_size : Int
deriving DecidableEq

/-- `trecv` (lines 145-152). `cap` is the capacity the caller passed in
`*bytes_size` (the length argument given to `recv`); the code overwrites
`*bytes_size` with the recv result and returns `-1` when that result is
less than 1. -/
def trecv (recvRet : Int) (recvData bytes : List Int) (cap : Int) : TrecvResult :=
  let bytes_size := recvRet
  let bytes := recvWrite recvRet recvData bytes
  if bytes_size < 1 then ⟨-1, bytes, bytes_size⟩
  else ⟨0, bytes, bytes_size⟩

/-! ## TCP send-then-receive (`tsend_recv`, src/netlib.h lines 175-189) -/

/-- Result of `tsend_recv`: return code, final buffer, final `*bytes_size`. -/
structure TsendRecvResult where
  ret : Int
  bytes : List Int
  bytes_size : Int
deriving DecidableEq

/-- The send loop of `tsend_recv` (lines 178-182), textually duplicated
from `tsend` in the source with `*bytes_size` in place of `bytes_size`. -/
def tsendRecvLoop : List Int → Int → Option Int
  | [], _ => none
  | r :: rs, bytes_size =>
    if r = -1 then some (-1)
    else if r < bytes_size then tsendRecvLoop rs bytes_size
    else some 0

/-- `tsend_recv` (lines 175-189): run the send loop on the buffer, then on
its success perform one `recv` into the same buffer, overwriting
`*bytes_size` with the recv result; send failure returns `-1`, a recv
result below 1 returns `-2`. `none` when the send-oracle trace ends before
the loop does. -/
def tsend_recv (sends : List Int) (recvRet : Int) (recvData bytes : List Int)
    (cap : Int) : Option TsendRecvResult :=
  match tsendRecvLoop sends cap with
  | none => none
  | some r =>
    if r = -1 then some ⟨-1, bytes, cap⟩
    else
      let bytes_size := recvRet
      let bytes := recvWrite recvRet recvData bytes
      if bytes_size < 1 then some ⟨-2, bytes, bytes_size⟩
      else some ⟨0, bytes, bytes_size⟩

/-- Modelled from the spec's words for `sendAndReceive` ("Composes the two
above: send the full buffer, then overwrite it in place with one receive
call's result"): run `tsend`, and on its success run `trecv` on the same
buffer and capacity, renaming `trecv`'s `-1` to `-2`. Used only to compare
against `tsend_recv`. -/
def sendAndReceive_spec (sends : List Int) (recvRet : Int) (recvData bytes : List Int)
    (cap : Int) : Option TsendRecvResult :=
  match tsend sends cap with
  | none => none
  | some r =>
    if r = -1 then some ⟨-1, bytes, cap⟩
    else
      let out := trecv recvRet recvData bytes cap
      some ⟨if out.ret = -1 then -2 else out.ret, out.bytes, out.bytes_size⟩

/-! ## TCP client connect (`tconnect`, src/netlib.h lines 58-83)

Oracles: `resolveOk` is whether `getaddrinfo` returned 0; `socketRet` is
the return of `socket` (`-1` or a file descriptor); `connectRet` the
return of `connect` (`-1` or 0). We track whether `freeaddrinfo(servinfo)`
was executed. -/

/-- Result of `tconnect`: return value and whether `freeaddrinfo` ran. -/
structure TconnectResult where
  ret : Int
  freedAddrinfo : Bool
deriving DecidableEq

/-- `tconnect` (lines 58-83): resolve, create socket, connect; the single
`freeaddrinfo(servinfo)` call sits on the success path only (line 81). -/
def tconnect (resolveOk : Bool) (socketRet connectRet : Int) : TconnectResult :=
  if resolveOk = false then ⟨-1, false⟩
  else if socketRet = -1 then ⟨-2, false⟩
  else if connectRet = -1 then ⟨-3, false⟩
  else ⟨socketRet, true⟩

/-! ## TCP server setup (`tcreate_host`, src/netlib.h lines 216-249) -/

/-- The four stages `tcreate_host` can execute, in source order:
`getaddrinfo`, `socket`, `setsockopt(SO_REUSEADDR)`, `bind`. -/
inductive Stage
  | resolveStep
  | createStep
  | reuseStep
  | bindStep
deriving DecidableEq

/-- Result of `tcreate_host`: return value and the list of stages the call
attempted, in execution order. -/
structure TcreateHostResult where
  ret : Int
  stages : List Stage
deriving DecidableEq

/-- `tcreate_host` (lines 216-249): resolve the wildcard address, create a
stream socket, set `SO_REUSEADDR`, then bind; failures return `-1`, `-2`,
`-4`, `-3` respectively, each guard executed only after the previous ones
passed. -/
def tcreate_host (resolveOk : Bool) (socketRet sockoptRet bindRet : Int) :
    TcreateHostResult :=
  if resolveOk = false then ⟨-1, [Stage.resolveStep]⟩
  else if socketRet = -1 then ⟨-2, [Stage.resolveStep, Stage.createStep]⟩
  else if sockoptRet = -1 then
    ⟨-4, [Stage.resolveStep, Stage.createStep, Stage.reuseStep]⟩
  else if bindRet = -1 then
    ⟨-3, [Stage.resolveStep, Stage.createStep, Stage.reuseStep, Stage.bindStep]⟩
  else ⟨socketRet, [Stage.resolveStep, Stage.createStep, Stage.reuseStep, Stage.bindStep]⟩

/-! ## UDP fire-and-forget send (`usend_once`, src/netlib.h lines 419-447)

Oracles as for `tconnect`, with `sendtoRet` the return of `sendto`. We
track both cleanup calls: `freeaddrinfo(servinfo)` and `close(sockfd)`. -/

/-- Result of `usend_once`: return value, whether `freeaddrinfo` ran, and
whether `close(sockfd)` ran. -/
structure UsendOnceResult where
  ret : Int
  freedAddrinfo : Bool
  closedSocket : Bool
deriving DecidableEq

/-- `usend_once` (lines 419-447): resolve, create datagram socket, send
one datagram. `freeaddrinfo` runs on every path past resolution (lines
436, 441, 444); `close(sockfd)` runs only on the success path (line 445). -/
def usend_once (resolveOk : Bool) (socketRet sendtoRet : Int) : UsendOnceResult :=
  if resolveOk = false then ⟨-1, false, false⟩
  else if socketRet = -1 then ⟨-2, true, false⟩
  else if sendtoRet = -1 then ⟨-3, true, false⟩
  else ⟨sendtoRet, true, true⟩

/-! ## Error-string macros for the two `create_host` functions
(src/netlib.h lines 191-201 and 450-460)

The C conditional expressions mix an `int` branch with `char*` branches:
in both `TCREATE_HOST_ERR__STR` and `UCREATE_HOST_ERR__STR` the branch for
code `-1` yields the macro `..._ERR_ADDR` (the integer constant) instead
of `..._ERR_ADDR_STR`. We model the expression's value as
`Sum Int String`: `Sum.inl` for a branch producing the integer, `Sum.inr`
for a branch producing a string. -/

def TCREATE_HOST_ERR_ADDR : Int := -1

def TCREATE_HOST_ERR_ADDR_STR : String := "Unable to resolve address"

def TCREATE_HOST_ERR_FD : Int := -2

def TCREATE_HOST_ERR_FD_STR : String := "Unable to set up files descriptor"

def TCREATE_HOST_ERR_PORT : Int := -3

def TCREATE_HOST_ERR_PORT_STR : String := "Unable to bind to port"

def TCREATE_HOST_ERR_FPORT : Int := -4

def TCREATE_HOST_ERR_FPORT_STR : String := "Unable to force bind to port"

/-- `TCREATE_HOST_ERR__STR` (line 201). The first branch reads
`TCREATE_HOST_ERR_ADDR`, not `TCREATE_HOST_ERR_ADDR_STR`, exactly as in
the source. -/
def TCREATE_HOST_ERR__STR (err : Int) : Sum Int String :=
  if err = TCREATE_HOST_ERR_ADDR then Sum.inl TCREATE_HOST_ERR_ADDR
  else if err = TCREATE_HOST_ERR_FD then Sum.inr TCREATE_HOST_ERR_FD_STR
  else if err = TCREATE_HOST_ERR_PORT then Sum.inr TCREATE_HOST_ERR_PORT_STR
  else if err = TCREATE_HOST_ERR_FPORT then Sum.inr TCREATE_HOST_ERR_FPORT_STR
  else Sum.inr ""

def UCREATE_HOST_ERR_ADDR : Int := -1

def UCREATE_HOST_ERR_ADDR_STR : String := "Unable to resolve address"

def UCREATE_HOST_ERR_FD : Int := -2

def UCREATE_HOST_ERR_FD_STR : String := "Unable to set up files descriptor"

def UCREATE_HOST_ERR_PORT : Int := -3

def UCREATE_HOST_ERR_PORT_STR : String := "Unable to bind to port"

def UCREATE_HOST_ERR_FPORT : Int := -4

def UCREATE_HOST_ERR_FPORT_STR : String := "Unable to force bind to port"

/-- `UCREATE_HOST_ERR__STR` (line 460). The first branch reads
`UCREATE_HOST_ERR_ADDR`, not `UCREATE_HOST_ERR_ADDR_STR`, exactly as in
the source. -/
def UCREATE_HOST_ERR__STR (err : Int) : Sum Int String :=
  if err = UCREATE_HOST_ERR_ADDR then Sum.inl UCREATE_HOST_ERR_ADDR
  else if err = UCREATE_HOST_ERR_FD then Sum.inr UCREATE_HOST_ERR_FD_STR
  else if err = UCREATE_HOST_ERR_PORT then Sum.inr UCREATE_HOST_ERR_PORT_STR
  else if err = UCREATE_HOST_ERR_FPORT then Sum.inr UCREATE_HOST_ERR_FPORT_STR
  else Sum.inr ""

/-! ## Claims -/

/-- C1: the claim says `tsend` delivers the caller's buffer to the peer
byte-for-byte exactly once even across partial sends. The code is wrong:
the loop re-issues `send` on the whole buffer without advancing, so on the
trace where the first `send` accepts 1 of 2 bytes and the second accepts
both, `tsend` reports success yet the kernel was handed the first byte
twice ([10, 10, 20] for buffer [10, 20]). -/
theorem tsend_partial_resend_duplicates :
    tsend [1, 2] 2 = some 0 ∧
    tsendDelivered [1, 2] 2 [10, 20] = [10, 10, 20] ∧
    tsendDelivered [1, 2] 2 [10, 20] ≠ [10, 20] := by
  refine ⟨rfl, rfl, ?_⟩
  decide

/-- C2: `trecv` returns `-1` exactly when the underlying `recv` result is
zero or negative; otherwise it returns `0` and the reported byte count is
the `recv` result, which is at least 1 and (by the `recv(2)` contract,
taken as the hypothesis `hcap`) at most the capacity passed in. -/
theorem trecv_error_iff (recvRet cap : Int) (recvData bytes : List Int)
    (hcap : recvRet ≤ cap) :
    ((trecv recvRet recvData bytes cap).ret = -1 ↔ recvRet ≤ 0) ∧
    (0 < recvRet →
      (trecv recvRet recvData bytes cap).ret = 0 ∧
      (trecv recvRet recvData bytes cap).bytes_size = recvRet ∧
      1 ≤ recvRet ∧ recvRet ≤ cap) := by
  constructor
  · by_cases h : recvRet < 1 <;> simp [trecv, h] <;> omega
  · intro hpos
    have h : ¬recvRet < 1 := by omega
    simp [trecv, h]
    omega

/-- Witness for C2 at `recv` result 3 with capacity 4. -/
theorem trecv_error_iff_witness :
    ((trecv 3 [7, 8, 9] [0, 0, 0, 0] 4).ret = -1 ↔ (3 : Int) ≤ 0) ∧
    (0 < (3 : Int) →
      (trecv 3 [7, 8, 9] [0, 0, 0, 0] 4).ret = 0 ∧
      (trecv 3 [7, 8, 9] [0, 0, 0, 0] 4).bytes_size = 3 ∧
      1 ≤ (3 : Int) ∧ (3 : Int) ≤ 4) :=
  trecv_error_iff 3 4 [7, 8, 9] [0, 0, 0, 0] (by decide)

/-- C3 counterexample: on the path where resolution succeeded and socket
creation failed, `tconnect` returns `-2` without having called
`freeaddrinfo`, contradicting the claim that the resolved-address
structure is released on every path past resolution. -/
theorem tconnect_sockfail_leaks_addrinfo :
    (tconnect true (-1) 0).ret = -2 ∧
    (tconnect true (-1) 0).freedAddrinfo = false := by
  decide

/-- C3 amended: `tconnect` releases the resolved-address structure exactly
on the success path (socket creation and connect both succeeded); on the
socket-creation-failure and connect-failure paths, and trivially on the
resolution-failure path, `freeaddrinfo` is not called. -/
theorem tconnect_frees_addrinfo_iff_success (socketRet connectRet : Int) :
    ((tconnect true socketRet connectRet).freedAddrinfo = true ↔
      socketRet ≠ -1 ∧ connectRet ≠ -1) ∧
    (tconnect false socketRet connectRet).freedAddrinfo = false := by
  unfold tconnect
  constructor
  · split
    · simp at *
    · split
      · simp_all
      · split <;> simp_all
  · simp

/-- C4: the claim says `usend_once` releases both the datagram socket and
the resolved address on every path on which they were created. The code is
wrong on the send-failure path: with resolution succeeded, socket fd 5
created, and `sendto` returning `-1`, the function returns `-3` after
`freeaddrinfo` but without `close(sockfd)` — and since the fd is never
returned, the caller cannot close it either. -/
theorem usend_once_sendfail_leaks_socket :
    usend_once true 5 (-1) =
      ⟨-3, true, false⟩ := by
  decide

/-- C5: `tconnect` error-stage ordering, with `hs` the `socket(2)`
contract that its result is `-1` or a nonnegative fd: `-1` is returned
exactly when resolution fails, `-2` exactly when resolution succeeded and
socket creation failed, `-3` exactly when resolution and socket creation
succeeded and `connect` failed. -/
theorem tconnect_error_stage_order (resolveOk : Bool) (socketRet connectRet : Int)
    (hs : socketRet = -1 ∨ 0 ≤ socketRet) :
    ((tconnect resolveOk socketRet connectRet).ret = -1 ↔ resolveOk = false) ∧
    ((tconnect resolveOk socketRet connectRet).ret = -2 ↔
      resolveOk = true ∧ socketRet = -1) ∧
    ((tconnect resolveOk socketRet connectRet).ret = -3 ↔
      resolveOk = true ∧ socketRet ≠ -1 ∧ connectRet = -1) := by
  unfold tconnect
  rcases resolveOk with _ | _
  · simp
  · by_cases h1 : socketRet = -1
    · simp [h1]
    · have h0 : 0 ≤ socketRet := by rcases hs with hs | hs <;> omega
      by_cases h2 : connectRet = -1
      · simp [h1, h2]
      · simp [h1, h2]
        omega

/-- Witness for C5 on the connect-failure path (resolution succeeded,
socket fd 4, `connect` returned `-1`). -/
theorem tconnect_error_stage_order_witness :
    ((tconnect true 4 (-1)).ret = -1 ↔ true = false) ∧
    ((tconnect true 4 (-1)).ret = -2 ↔ true = true ∧ (4 : Int) = -1) ∧
    ((tconnect true 4 (-1)).ret = -3 ↔
      true = true ∧ (4 : Int) ≠ -1 ∧ (-1 : Int) = -1) :=
  tconnect_error_stage_order true 4 (-1) (Or.inr (by decide))

/-- The send loop duplicated inside `tsend_recv` (lines 178-182) computes
the same outcome as the loop of `tsend` (lines 119-123). -/
theorem tsendRecvLoop_eq_tsendLoop (sends : List Int) (bytes_size : Int) :
    tsendRecvLoop sends bytes_size = tsendLoop sends bytes_size := by
  induction sends with
  | nil => rfl
  | cons r rs ih =>
    unfold tsendRecvLoop tsendLoop
    rw [ih]

/-- C6: `tsend_recv` is the composition of `tsend` and, on its success,
`trecv` on the same buffer and capacity: identical final buffer contents
and byte count, `-1` exactly where `tsend` reports its send error, `-2`
exactly where `trecv` reports its receive error. -/
theorem tsend_recv_matches_composition (sends : List Int) (recvRet : Int)
    (recvData bytes : List Int) (cap : Int) :
    tsend_recv sends recvRet recvData bytes cap =
      sendAndReceive_spec sends recvRet recvData bytes cap := by
  unfold tsend_recv sendAndReceive_spec tsend
  rw [tsendRecvLoop_eq_tsendLoop]
  cases h : tsendLoop sends cap with
  | none => rfl
  | some r =>
    by_cases hr : r = -1
    · simp [hr]
    · by_cases hrecv : recvRet < 1
      · simp [trecv, hr, hrecv]
      · simp [trecv, hr, hrecv]

/-- C7: the claim says the per-operation lookups map each error code of
the two `create_host` functions to its documented description string, in
particular `-1` to "Unable to resolve address". The code is wrong for
`-1`: both macros' first branch names the error-code constant (the `_STR`
suffix is missing at lines 201 and 460), so the lookup at `-1` yields the
integer `-1` and not the string; the other three codes map correctly. -/
theorem create_host_err_str_drops_addr_string :
    TCREATE_HOST_ERR__STR (-1) = Sum.inl (-1) ∧
    TCREATE_HOST_ERR__STR (-1) ≠ Sum.inr "Unable to resolve address" ∧
    UCREATE_HOST_ERR__STR (-1) = Sum.inl (-1) ∧
    UCREATE_HOST_ERR__STR (-1) ≠ Sum.inr "Unable to resolve address" ∧
    TCREATE_HOST_ERR__STR (-2) = Sum.inr "Unable to set up files descriptor" ∧
    TCREATE_HOST_ERR__STR (-3) = Sum.inr "Unable to bind to port" ∧
    TCREATE_HOST_ERR__STR (-4) = Sum.inr "Unable to force bind to port" ∧
    UCREATE_HOST_ERR__STR (-2) = Sum.inr "Unable to set up files descriptor" ∧
    UCREATE_HOST_ERR__STR (-3) = Sum.inr "Unable to bind to port" ∧
    UCREATE_HOST_ERR__STR (-4) = Sum.inr "Unable to force bind to port" := by
  refine ⟨rfl, ?_, rfl, ?_, rfl, rfl, rfl, rfl, rfl, rfl⟩ <;> simp [TCREATE_HOST_ERR__STR,
    UCREATE_HOST_ERR__STR, TCREATE_HOST_ERR_ADDR, UCREATE_HOST_ERR_ADDR]

/-- C8: `tcreate_host` attempts its stages in the order resolve, create
socket, set address-reuse, bind — the executed stage list is always one of
the four prefixes of that order, so the reuse option is set before bind is
ever attempted — and each failure code (`-1`, `-2`, `-4`, `-3`) identifies
its stage, reachable exactly when all earlier stages succeeded. `hs` is
the `socket(2)` contract that its result is `-1` or a nonnegative fd. -/
theorem tcreate_host_stage_order (resolveOk : Bool)
    (socketRet sockoptRet bindRet : Int) (hs : socketRet = -1 ∨ 0 ≤ socketRet) :
    ((tcreate_host resolveOk socketRet sockoptRet bindRet).ret = -1 ↔
      resolveOk = false) ∧
    ((tcreate_host resolveOk socketRet sockoptRet bindRet).ret = -2 ↔
      resolveOk = true ∧ socketRet = -1) ∧
    ((tcreate_host resolveOk socketRet sockoptRet bindRet).ret = -4 ↔
      resolveOk = true ∧ socketRet ≠ -1 ∧ sockoptRet = -1) ∧
    ((tcreate_host resolveOk socketRet sockoptRet bindRet).ret = -3 ↔
      resolveOk = true ∧ socketRet ≠ -1 ∧ sockoptRet ≠ -1 ∧ bindRet = -1) ∧
    ((tcreate_host resolveOk socketRet sockoptRet bindRet).stages =
        [Stage.resolveStep] ∨
      (tcreate_host resolveOk socketRet sockoptRet bindRet).stages =
        [Stage.resolveStep, Stage.createStep] ∨
      (tcreate_host resolveOk socketRet sockoptRet bindRet).stages =
        [Stage.resolveStep, Stage.createStep, Stage.reuseStep] ∨
      (tcreate_host resolveOk socketRet sockoptRet bindRet).stages =
        [Stage.resolveStep, Stage.createStep, Stage.reuseStep, Stage.bindStep]) := by
  unfold tcreate_host
  rcases resolveOk with _ | _
  · simp
  · by_cases h1 : socketRet = -1
    · simp [h1]
    · have h0 : 0 ≤ socketRet := by rcases hs with hs | hs <;> omega
      by_cases h2 : sockoptRet = -1
      · simp [h1, h2]
      · by_cases h3 : bindRet = -1
        · simp [h1, h2, h3]
        · simp [h1, h2, h3]
          omega

/-- Witness for C8 on the bind-failure path (resolution succeeded, socket
fd 6, reuse option set, `bind` returned `-1`). -/
theorem tcreate_host_stage_order_witness :
    ((tcreate_host true 6 0 (-1)).ret = -1 ↔ true = false) ∧
    ((tcreate_host true 6 0 (-1)).ret = -2 ↔ true = true ∧ (6 : Int) = -1) ∧
    ((tcreate_host true 6 0 (-1)).ret = -4 ↔
      true = true ∧ (6 : Int) ≠ -1 ∧ (0 : Int) = -1) ∧
    ((tcreate_host true 6 0 (-1)).ret = -3 ↔
      true = true ∧ (6 : Int) ≠ -1 ∧ (0 : Int) ≠ -1 ∧ (-1 : Int) = -1) ∧
    ((tcreate_host true 6 0 (-1)).stages = [Stage.resolveStep] ∨
      (tcreate_host true 6 0 (-1)).stages = [Stage.resolveStep, Stage.createStep] ∨
      (tcreate_host true 6 0 (-1)).stages =
        [Stage.resolveStep, Stage.createStep, Stage.reuseStep] ∨
      (tcreate_host true 6 0 (-1)).stages =
        [Stage.resolveStep, Stage.createStep, Stage.reuseStep, Stage.bindStep]) :=
  tcreate_host_stage_order true 6 0 (-1) (Or.inr (by decide))

/-- C9: when every `send` call returns a nonnegative count strictly below
the requested size, neither send loop ever exits: no matter how many such
partial results the oracle trace lists, the loops of `tsend` and
`tsend_recv` reach the end of the trace still running (each iteration
re-enters with identical arguments, accumulating nothing). -/
theorem tsend_loops_forever_on_partial_sends (sends : List Int) (bytes_size : Int)
    (h : ∀ r ∈ sends, 0 ≤ r ∧ r < bytes_size) :
    tsendLoop sends bytes_size = none ∧ tsendRecvLoop sends bytes_size = none := by
  induction sends with
  | nil => exact ⟨rfl, rfl⟩
  | cons r rs ih =>
    have hr := h r (List.mem_cons_self r rs)
    have hrs : ∀ x ∈ rs, 0 ≤ x ∧ x < bytes_size := fun x hx =>
      h x (List.mem_cons_of_mem r hx)
    have hne : ¬r = -1 := by omega
    have ihs := ih hrs
    constructor
    · unfold tsendLoop
      simp [hne, hr.2, ihs.1]
    · unfold tsendRecvLoop
      simp [hne, hr.2, ihs.2]

/-- Witness for C9 on the trace [0, 1] with requested size 2 (both results
nonnegative and below 2). -/
theorem tsend_loops_forever_on_partial_sends_witness :
    tsendLoop [0, 1] 2 = none ∧ tsendRecvLoop [0, 1] 2 = none :=
  tsend_loops_forever_on_partial_sends [0, 1] 2 (by decide)

/-- C10: on the failure path of `trecv` (recv result zero or negative),
the in/out byte-count parameter has been overwritten with the recv result
before the `-1` return, so whenever the capacity passed in was positive,
its value is lost. -/
theorem trecv_failure_overwrites_capacity (recvRet cap : Int)
    (recvData bytes : List Int) (h : recvRet ≤ 0) :
    (trecv recvRet recvData bytes cap).ret = -1 ∧
    (trecv recvRet recvData bytes cap).bytes_size = recvRet ∧
    (0 < cap → (trecv recvRet recvData bytes cap).bytes_size ≠ cap) := by
  have h1 : recvRet < 1 := by omega
  simp [trecv, h1]
  omega

/-- Witness for C10 at recv result 0 with capacity 8. -/
theorem trecv_failure_overwrites_capacity_witness :
    (trecv 0 [] [1, 2] 8).ret = -1 ∧
    (trecv 0 [] [1, 2] 8).bytes_size = 0 ∧
    (0 < (8 : Int) → (trecv 0 [] [1, 2] 8).bytes_size ≠ 8) :=
  trecv_failure_overwrites_capacity 0 8 [] [1, 2] (by decide)

end Netlib
